import Mathlib

/-!
Verification of the board-rotation component in
`src/components/SlotBoard.svelte` (Svelte 5 + PIXI + gsap demo
"Strength of Hercules — board rotation").

Modelling conventions for the shallow embedding:

* All numeric values carried by the animation are exact rationals (`ℚ`).
* A PIXI display rotation is stored in units of π radians: a field value
  `q` stands for the real rotation `q * π` radians.  The source always
  writes rotations as `d * (Math.PI / 180)` for a degree value `d`, which
  embeds exactly as `radOfDeg d = d * (1 / 180)`.
* A gsap `timeline.to(target, props)` call is embedded as a `TweenSpec`
  record of the end values it sets (`boardContainer.scale` tweens fill the
  `scaleX`/`scaleY` fields, `boardContainer` tweens fill `rotation`/`y`),
  with the duration, easing string and position label kept verbatim.
  "Runs to completion" means every tween reaches its end value in
  insertion order and then the timeline `onComplete` callback fires.
* `Math.random()` is modelled as an ambient stream `randoms : Nat → ℚ`,
  one draw per loop iteration; `Math.random`'s contract (values in
  `[0, 1)`) becomes an explicit hypothesis where needed.
* JavaScript out-of-range array reads (`SYMBOLS[i]` for bad `i`, which
  yield `undefined`) are modelled by `List.getD` with the placeholder
  `' '`, a character deliberately outside `SYMBOLS`.
-/

/-! ## Configuration constants (`BOARD_CONFIG`, `ANIMATION_CONFIG`, `SYMBOLS`) -/

/-- `BOARD_CONFIG.GRID_SIZE`: the board is a 5×5 grid. -/
def GRID_SIZE : Nat := 5

/-- `BOARD_CONFIG.SYMBOL_SIZE`. -/
def SYMBOL_SIZE : ℚ := 60

/-- `BOARD_CONFIG.SYMBOL_SPACING`. -/
def SYMBOL_SPACING : ℚ := 10

/-- `BOARD_CONFIG.FRAME_PADDING`. -/
def FRAME_PADDING : ℚ := 20

/-- `BOARD_CONFIG.CANVAS_PADDING`. -/
def CANVAS_PADDING : ℚ := 100

/-- `BOARD_WIDTH` as computed in the component. -/
def BOARD_WIDTH : ℚ :=
  (GRID_SIZE : ℚ) * SYMBOL_SIZE + ((GRID_SIZE : ℚ) - 1) * SYMBOL_SPACING + FRAME_PADDING * 2

/-- `BOARD_HEIGHT = BOARD_WIDTH`. -/
def BOARD_HEIGHT : ℚ := BOARD_WIDTH

/-- `CANVAS_WIDTH = BOARD_WIDTH + CANVAS_PADDING`. -/
def CANVAS_WIDTH : ℚ := BOARD_WIDTH + CANVAS_PADDING

/-- `CANVAS_HEIGHT = BOARD_HEIGHT + CANVAS_PADDING`. -/
def CANVAS_HEIGHT : ℚ := BOARD_HEIGHT + CANVAS_PADDING

/-- `ANIMATION_CONFIG.UPWARD_MOVEMENT` (negative Y moves up). -/
def UPWARD_MOVEMENT : ℚ := -80

/-- `ANIMATION_CONFIG.ROTATION_OVERSHOOT` in degrees. -/
def ROTATION_OVERSHOOT : ℚ := 95

/-- `ANIMATION_CONFIG.ROTATION_BOUNCE_BACK` in degrees. -/
def ROTATION_BOUNCE_BACK : ℚ := 87

/-- `ANIMATION_CONFIG.FINAL_ROTATION` in degrees. -/
def FINAL_ROTATION : ℚ := 90

/-- `ANIMATION_CONFIG.ZOOM_OUT_SCALE`. -/
def ZOOM_OUT_SCALE : ℚ := 0.90

/-- `ANIMATION_CONFIG.ZOOM_IN_SCALE`. -/
def ZOOM_IN_SCALE : ℚ := 1.0

/-- `ANIMATION_CONFIG.DURATION.UPWARD`. -/
def DURATION_UPWARD : ℚ := 0.4

/-- `ANIMATION_CONFIG.DURATION.ROTATION_BOUNCE`. -/
def DURATION_ROTATION_BOUNCE : ℚ := 0.15

/-- `ANIMATION_CONFIG.DURATION.ROTATION_SETTLE`. -/
def DURATION_ROTATION_SETTLE : ℚ := 0.2

/-- `ANIMATION_CONFIG.DURATION.FALL_DOWN`. -/
def DURATION_FALL_DOWN : ℚ := 0.5

/-- `ANIMATION_CONFIG.DURATION.RESET`. -/
def DURATION_RESET : ℚ := 0.5

/-- `ANIMATION_CONFIG.EASING.UPWARD`. -/
def EASE_UPWARD : String := "power2.out"

/-- `ANIMATION_CONFIG.EASING.ROTATION_BOUNCE`. -/
def EASE_ROTATION_BOUNCE : String := "power1.inOut"

/-- `ANIMATION_CONFIG.EASING.ROTATION_SETTLE`. -/
def EASE_ROTATION_SETTLE : String := "elastic.out(1, 0.5)"

/-- `ANIMATION_CONFIG.EASING.FALL_DOWN`. -/
def EASE_FALL_DOWN : String := "bounce.out"

/-- `ANIMATION_CONFIG.EASING.RESET`. -/
def EASE_RESET : String := "power2.inOut"

/-- `const SYMBOLS = 'ABCDEFGHIJKLMNOPQRSTUVWXYZ'.split('')`. -/
def SYMBOLS : List Char := "ABCDEFGHIJKLMNOPQRSTUVWXYZ".toList

/-- Embedding of `d * (Math.PI / 180)` for a degree value `d`, measured in
units of π radians (the stored value times π is the radian value). -/
def radOfDeg (d : ℚ) : ℚ := d * (1 / 180)

/-! ## Data model -/

/-- The PIXI display container holding the board: the fields mutated by the
component and the animation engine (`x`, `y`, `rotation`, `scale.x`,
`scale.y`, `pivot.x`, `pivot.y`).  `rotation` is in units of π radians. -/
structure BoardContainer where
  x : ℚ
  y : ℚ
  rotation : ℚ
  scaleX : ℚ
  scaleY : ℚ
  pivotX : ℚ
  pivotY : ℚ
deriving DecidableEq, Repr

/-- A fresh `new PIXI.Container()`: position and pivot zero, scale one. -/
def newContainer : BoardContainer :=
  { x := 0, y := 0, rotation := 0, scaleX := 1, scaleY := 1, pivotX := 0, pivotY := 0 }

/-- The component-level mutable state of `SlotBoard.svelte`:
`boardContainer` (`none` when the render target is uninitialized), the
`activated` prop, `currentRotation` (tracked rotation, in degrees),
`originalBoardY` and `symbolGrid`. -/
structure SlotBoardState where
  boardContainer : Option BoardContainer
  activated : Bool
  currentRotation : ℚ
  originalBoardY : ℚ
  symbolGrid : List Char
deriving DecidableEq, Repr

/-- One `timeline.to(target, props)` (or `gsap.to`) call: the end values it
drives its target's fields to (`none` = property not animated by this
tween), its duration, easing, and the timeline position label if one was
passed. -/
structure TweenSpec where
  rotation : Option ℚ := none
  y : Option ℚ := none
  scaleX : Option ℚ := none
  scaleY : Option ℚ := none
  duration : ℚ
  ease : String
  position : Option String := none
deriving DecidableEq, Repr

/-- The gsap timeline built by `createRotationAnimation`: its tween list in
insertion order, plus the values captured by the `onComplete` closure
(`startY` and `startRotation`). -/
structure RotationTimeline where
  tweens : List TweenSpec
  startY : ℚ
  startRotation : ℚ
deriving DecidableEq, Repr

/-- What a call to `rotateBoard` produces: the component state afterwards,
the started timeline (if any), and the `console.error` log emitted by the
catch handler (if any). -/
structure RotateResult where
  state : SlotBoardState
  timeline : Option RotationTimeline
  logged : Option String
deriving DecidableEq, Repr

/-! ## Operations -/

/-- `generateSymbolGrid`: fills `GRID_SIZE * GRID_SIZE` cells, each with
`SYMBOLS[Math.floor(Math.random() * SYMBOLS.length)]`.  `randoms i` is the
`Math.random()` draw of iteration `i`. -/
def generateSymbolGrid (randoms : Nat → ℚ) : List Char :=
  (List.range (GRID_SIZE * GRID_SIZE)).map fun i =>
    let randomIndex := (Int.floor (randoms i * (SYMBOLS.length : ℚ))).toNat
    SYMBOLS.getD randomIndex ' '

/-- `initializeBoardContainer`: a new container with pivot at board center,
positioned at canvas center; the second component is the value written to
`originalBoardY`. -/
def initializeBoardContainer : BoardContainer × ℚ :=
  ({ newContainer with
      pivotX := BOARD_WIDTH / 2, pivotY := BOARD_HEIGHT / 2,
      x := CANVAS_WIDTH / 2, y := CANVAS_HEIGHT / 2 },
   CANVAS_HEIGHT / 2)

/-- The component state right after a successful `onMount` (the `activated`
prop and the `Math.random` stream are inputs): `boardContainer` initialized,
`currentRotation = 0`, `boardContainer.rotation = currentRotation`. -/
def mountedState (activated : Bool) (randoms : Nat → ℚ) : SlotBoardState :=
  { boardContainer := some { initializeBoardContainer.1 with rotation := 0 },
    activated := activated,
    currentRotation := 0,
    originalBoardY := initializeBoardContainer.2,
    symbolGrid := generateSymbolGrid randoms }

/-- `createRotationAnimation`: throws when `boardContainer` is null;
otherwise captures `startY`/`startRotation`, fixes a zero scale, and builds
the six-tween timeline.  Returns the (possibly scale-fixed) state together
with the timeline. -/
def createRotationAnimation (s : SlotBoardState) :
    Except String (SlotBoardState × RotationTimeline) :=
  match s.boardContainer with
  | none => .error "Board container not initialized"
  | some c0 =>
    let startY := c0.y
    let startRotation := s.currentRotation
    let targetY := startY + UPWARD_MOVEMENT
    let c := if c0.scaleX = 0 ∨ c0.scaleY = 0 then { c0 with scaleX := 1, scaleY := 1 } else c0
    let tweens : List TweenSpec :=
      [ { scaleX := some ZOOM_OUT_SCALE, scaleY := some ZOOM_OUT_SCALE,
          duration := DURATION_UPWARD, ease := EASE_UPWARD },
        { y := some targetY, rotation := some (radOfDeg (startRotation + ROTATION_OVERSHOOT)),
          duration := DURATION_UPWARD, ease := EASE_UPWARD, position := some "<" },
        { rotation := some (radOfDeg (startRotation + ROTATION_BOUNCE_BACK)),
          duration := DURATION_ROTATION_BOUNCE, ease := EASE_ROTATION_BOUNCE,
          position := some "-=0.05" },
        { rotation := some (radOfDeg (startRotation + FINAL_ROTATION)), y := some targetY,
          duration := DURATION_ROTATION_SETTLE, ease := EASE_ROTATION_SETTLE },
        { scaleX := some ZOOM_IN_SCALE, scaleY := some ZOOM_IN_SCALE,
          duration := DURATION_FALL_DOWN, ease := EASE_FALL_DOWN, position := some "-=0.05" },
        { y := some startY,
          duration := DURATION_FALL_DOWN, ease := EASE_FALL_DOWN, position := some "<" } ]
    .ok ({ s with boardContainer := some c },
         { tweens := tweens, startY := startY, startRotation := startRotation })

/-- The timeline's `onComplete` callback: when the container still exists,
locks in the final rotation, restores `y`, sets the scale, and updates the
tracked rotation. -/
def timelineOnComplete (tl : RotationTimeline) (s : SlotBoardState) : SlotBoardState :=
  match s.boardContainer with
  | none => s
  | some c =>
    { s with
      boardContainer := some
        { c with
          rotation := radOfDeg (tl.startRotation + FINAL_ROTATION),
          y := tl.startY,
          scaleX := ZOOM_IN_SCALE, scaleY := ZOOM_IN_SCALE },
      currentRotation := tl.startRotation + FINAL_ROTATION }

/-- Apply one tween's end values to the container. -/
def applyTween (c : BoardContainer) (t : TweenSpec) : BoardContainer :=
  { c with
    rotation := t.rotation.getD c.rotation,
    y := t.y.getD c.y,
    scaleX := t.scaleX.getD c.scaleX,
    scaleY := t.scaleY.getD c.scaleY }

/-- Run a timeline to completion: every tween reaches its end value in
insertion order, then `onComplete` fires. -/
def runTimelineToCompletion (tl : RotationTimeline) (s : SlotBoardState) : SlotBoardState :=
  timelineOnComplete tl
    { s with boardContainer := s.boardContainer.map fun c => tl.tweens.foldl applyTween c }

/-- `rotateBoard` without the try/catch: the guard, then the (fallible)
`createRotationAnimation` call with its error propagating. -/
def rotateBoardNoCatch (s : SlotBoardState) : Except String RotateResult :=
  if s.boardContainer.isNone || !s.activated then
    .ok { state := s, timeline := none, logged := none }
  else
    match createRotationAnimation s with
    | .ok p => .ok { state := p.1, timeline := some p.2, logged := none }
    | .error e => .error e

/-- `rotateBoard`: the guard, then `createRotationAnimation` inside
try/catch; a caught error is logged via `console.error` and the function
returns normally. -/
def rotateBoard (s : SlotBoardState) : RotateResult :=
  match rotateBoardNoCatch s with
  | .ok r => r
  | .error e =>
    { state := s, timeline := none,
      logged := some ("Failed to animate board rotation: " ++ e) }

/-- The component state after `rotateBoard`'s timeline (when one was
started) runs to completion. -/
def runRotateToCompletion (s : SlotBoardState) : Option SlotBoardState :=
  (rotateBoard s).timeline.map fun tl => runTimelineToCompletion tl (rotateBoard s).state

/-- `resetRotation`: no-op when `boardContainer` is null; otherwise starts
`gsap.to(boardContainer, { rotation: 0, ... })`.  Returns the (unchanged)
state and the started tween, if any. -/
def resetRotation (s : SlotBoardState) : SlotBoardState × Option TweenSpec :=
  match s.boardContainer with
  | none => (s, none)
  | some _ =>
    (s, some { rotation := some 0, duration := DURATION_RESET, ease := EASE_RESET })

/-- The state after `resetRotation`'s tween runs to completion: the tween
drives `boardContainer.rotation` to `0`, then its `onComplete` sets
`currentRotation = 0`. -/
def runResetToCompletion (s : SlotBoardState) : SlotBoardState :=
  { s with
    boardContainer := s.boardContainer.map fun c => { c with rotation := 0 },
    currentRotation := 0 }

/-- The `$effect` syncing the `rotation` prop (a defined degree value `r`)
with the board: when the container exists, writes
`boardContainer.rotation = r * (Math.PI / 180)` and `currentRotation = r`. -/
def rotationEffect (r : ℚ) (s : SlotBoardState) : SlotBoardState :=
  match s.boardContainer with
  | none => s
  | some c =>
    { s with boardContainer := some { c with rotation := radOfDeg r }, currentRotation := r }

/-- The rotation end values of a timeline's tweens, in insertion order. -/
def rotationTargets (tl : RotationTimeline) : List ℚ :=
  tl.tweens.filterMap TweenSpec.rotation

/-- The `scale.x` end values of a timeline's tweens, in insertion order. -/
def scaleXTargets (tl : RotationTimeline) : List ℚ :=
  tl.tweens.filterMap TweenSpec.scaleX

/-- The `scale.y` end values of a timeline's tweens, in insertion order. -/
def scaleYTargets (tl : RotationTimeline) : List ℚ :=
  tl.tweens.filterMap TweenSpec.scaleY

/-! ## Concrete states for witnesses and counterexamples -/

/-- A freshly mounted, activated component (deterministic symbol stream). -/
def demoState : SlotBoardState := mountedState true (fun _ => 0)

/-- The container of `demoState`. -/
def demoContainer : BoardContainer := { initializeBoardContainer.1 with rotation := 0 }

/-- A mounted but not-yet-activated component. -/
def demoStateInactive : SlotBoardState := mountedState false (fun _ => 0)

/-- An activated component whose tracked rotation is already 90° (as after
one completed spin). -/
def demoStateRotated : SlotBoardState :=
  { demoState with
    boardContainer := some { demoContainer with rotation := radOfDeg 90 },
    currentRotation := 90 }

/-- An activated component whose container scale is ½ on both axes. -/
def demoStateHalfScale : SlotBoardState :=
  { demoState with
    boardContainer := some { demoContainer with scaleX := 1/2, scaleY := 1/2 } }

/-- A component whose render target was never initialized. -/
def uninitState : SlotBoardState :=
  { boardContainer := none, activated := true, currentRotation := 5,
    originalBoardY := 0, symbolGrid := [] }

/-! ## Helper lemmas -/

theorem rotate_run_final (s : SlotBoardState) (c : BoardContainer)
    (h1 : s.boardContainer = some c) (h2 : s.activated = true) :
    runRotateToCompletion s = some
      { s with
        boardContainer := some
          { c with rotation := radOfDeg (s.currentRotation + FINAL_ROTATION),
                   scaleX := ZOOM_IN_SCALE, scaleY := ZOOM_IN_SCALE },
        currentRotation := s.currentRotation + FINAL_ROTATION } := by
  by_cases hz : c.scaleX = 0 ∨ c.scaleY = 0
  · simp [runRotateToCompletion, rotateBoard, rotateBoardNoCatch, createRotationAnimation,
      h1, h2, hz, runTimelineToCompletion, timelineOnComplete, applyTween]
  · simp [runRotateToCompletion, rotateBoard, rotateBoardNoCatch, createRotationAnimation,
      h1, h2, hz, runTimelineToCompletion, timelineOnComplete, applyTween]

/-- The timeline built by a successful `rotateBoard`, explicitly. -/
theorem rotate_timeline_eq (s : SlotBoardState) (c : BoardContainer)
    (h1 : s.boardContainer = some c) (h2 : s.activated = true) :
    (rotateBoard s).timeline = some
      { tweens :=
          [ { scaleX := some ZOOM_OUT_SCALE, scaleY := some ZOOM_OUT_SCALE,
              duration := DURATION_UPWARD, ease := EASE_UPWARD },
            { y := some (c.y + UPWARD_MOVEMENT),
              rotation := some (radOfDeg (s.currentRotation + ROTATION_OVERSHOOT)),
              duration := DURATION_UPWARD, ease := EASE_UPWARD, position := some "<" },
            { rotation := some (radOfDeg (s.currentRotation + ROTATION_BOUNCE_BACK)),
              duration := DURATION_ROTATION_BOUNCE, ease := EASE_ROTATION_BOUNCE,
              position := some "-=0.05" },
            { rotation := some (radOfDeg (s.currentRotation + FINAL_ROTATION)),
              y := some (c.y + UPWARD_MOVEMENT),
              duration := DURATION_ROTATION_SETTLE, ease := EASE_ROTATION_SETTLE },
            { scaleX := some ZOOM_IN_SCALE, scaleY := some ZOOM_IN_SCALE,
              duration := DURATION_FALL_DOWN, ease := EASE_FALL_DOWN,
              position := some "-=0.05" },
            { y := some c.y,
              duration := DURATION_FALL_DOWN, ease := EASE_FALL_DOWN,
              position := some "<" } ],
        startY := c.y, startRotation := s.currentRotation } := by
  by_cases hz : c.scaleX = 0 ∨ c.scaleY = 0 <;>
    simp [rotateBoard, rotateBoardNoCatch, createRotationAnimation, h1, h2, hz]

/-! ## Claims -/

/-- C1 (amended): a completed rotation animation triggered from tracked
rotation `r` leaves the board's rotation at `(r + 90)` degrees — i.e.
`(r + 90) * π/180` radians — not at 90 degrees absolutely; the `onComplete`
handler writes this final value (and `y`, the scale, and the tracked
rotation) directly, whatever the tweened values drifted to. -/
theorem c1_final_rotation (s : SlotBoardState) (c : BoardContainer)
    (h1 : s.boardContainer = some c) (h2 : s.activated = true) :
    ((runRotateToCompletion s).map fun fin =>
        fin.boardContainer.map BoardContainer.rotation) =
      some (some (radOfDeg (s.currentRotation + 90))) ∧
    (∀ tl : RotationTimeline, ∀ d : SlotBoardState, ∀ c2 : BoardContainer,
      d.boardContainer = some c2 →
        (timelineOnComplete tl d).boardContainer.map BoardContainer.rotation =
          some (radOfDeg (tl.startRotation + FINAL_ROTATION))) := by
  constructor
  · rw [rotate_run_final s c h1 h2]
    simp [FINAL_ROTATION]
  · intro tl d c2 hd
    simp [timelineOnComplete, hd]

/-- C1 witness: the amended claim evaluated on a freshly mounted,
activated board. -/
theorem c1_witness :
    demoState.boardContainer = some demoContainer ∧ demoState.activated = true ∧
    ((runRotateToCompletion demoState).map fun fin =>
        fin.boardContainer.map BoardContainer.rotation) =
      some (some (radOfDeg (0 + 90))) :=
  ⟨rfl, rfl, (c1_final_rotation demoState demoContainer rfl rfl).1⟩

/-- C1 counterexample: triggered from tracked rotation 90°, the completed
animation leaves the board at 180°, not 90°, refuting the claim as
stated. -/
theorem c1_counterexample :
    ((runRotateToCompletion demoStateRotated).map fun fin =>
        fin.boardContainer.map BoardContainer.rotation) =
      some (some (radOfDeg 180)) ∧ radOfDeg 180 ≠ radOfDeg 90 := by
  constructor
  · rw [rotate_run_final demoStateRotated
      { demoContainer with rotation := radOfDeg 90 } rfl rfl]
    norm_num [FINAL_ROTATION, demoStateRotated, radOfDeg]
  · norm_num [radOfDeg]

/-- C2 (confirmed): a `rotateBoard` started from tracked rotation `r`
builds a timeline whose rotation end values are, in order,
`(r + 95)`, `(r + 87)`, `(r + 90)` degrees (each stored as
`degrees * π/180` radians), and whose scale end values on both axes are,
in order, `0.90` then `1.0`. -/
theorem c2_timeline_targets (s : SlotBoardState) (c : BoardContainer)
    (h1 : s.boardContainer = some c) (h2 : s.activated = true) :
    ((rotateBoard s).timeline.map fun tl =>
        (rotationTargets tl, scaleXTargets tl, scaleYTargets tl)) =
      some ([radOfDeg (s.currentRotation + 95), radOfDeg (s.currentRotation + 87),
             radOfDeg (s.currentRotation + 90)],
            [0.90, 1.0], [0.90, 1.0]) := by
  rw [rotate_timeline_eq s c h1 h2]
  simp [rotationTargets, scaleXTargets, scaleYTargets,
    ROTATION_OVERSHOOT, ROTATION_BOUNCE_BACK, FINAL_ROTATION, ZOOM_OUT_SCALE, ZOOM_IN_SCALE]

/-- C2 witness: the tween targets evaluated on a freshly mounted,
activated board. -/
theorem c2_witness :
    demoState.boardContainer = some demoContainer ∧ demoState.activated = true ∧
    ((rotateBoard demoState).timeline.map fun tl =>
        (rotationTargets tl, scaleXTargets tl, scaleYTargets tl)) =
      some ([radOfDeg (0 + 95), radOfDeg (0 + 87), radOfDeg (0 + 90)],
            [0.90, 1.0], [0.90, 1.0]) :=
  ⟨rfl, rfl, c2_timeline_targets demoState demoContainer rfl rfl⟩

/-- C3 (amended): `rotateBoard` starts an animation exactly when the board
container is initialized AND the `activated` prop is true; a false
`activated` is a second, independent precondition that makes the call a
no-op even with an initialized container. -/
theorem c3_start_iff (s : SlotBoardState) :
    ((rotateBoard s).timeline).isSome = true ↔
      (s.boardContainer.isSome = true ∧ s.activated = true) := by
  rcases hbc : s.boardContainer with _ | c
  · simp [rotateBoard, rotateBoardNoCatch, hbc]
  · cases ha : s.activated
    · simp [rotateBoard, rotateBoardNoCatch, hbc, ha]
    · by_cases hz : c.scaleX = 0 ∨ c.scaleY = 0 <;>
        simp [rotateBoard, rotateBoardNoCatch, createRotationAnimation, hbc, ha, hz]

/-- C3 counterexample: a mounted (container initialized) but
non-activated component: `rotateBoard` starts nothing and changes
nothing, refuting "no other precondition causes it to be a no-op". -/
theorem c3_counterexample :
    demoStateInactive.boardContainer.isSome = true ∧
    (rotateBoard demoStateInactive).timeline = none ∧
    (rotateBoard demoStateInactive).state = demoStateInactive :=
  ⟨rfl, rfl, rfl⟩

/-- C4 (confirmed): with the render surface absent
(`boardContainer = null`), both `rotateBoard` and `resetRotation` return
immediately: no timeline or tween is started, no log is emitted, and the
component state (tracked rotation included) is unchanged. -/
theorem c4_noop_when_absent (s : SlotBoardState) (h : s.boardContainer = none) :
    rotateBoard s = { state := s, timeline := none, logged := none } ∧
    resetRotation s = (s, none) := by
  constructor
  · simp [rotateBoard, rotateBoardNoCatch, h]
  · simp [resetRotation, h]

/-- C4 witness: the no-op evaluated on a component whose render target
was never initialized. -/
theorem c4_witness :
    uninitState.boardContainer = none ∧
    rotateBoard uninitState = { state := uninitState, timeline := none, logged := none } ∧
    resetRotation uninitState = (uninitState, none) :=
  ⟨rfl, (c4_noop_when_absent uninitState rfl).1, (c4_noop_when_absent uninitState rfl).2⟩

/-- C5 (confirmed): running `rotateBoard`'s body with the
`createRotationAnimation` error propagating (`rotateBoardNoCatch`) never
actually produces an error — in every state it returns `Except.ok` of
exactly what `rotateBoard` (whose definition catches and logs any such
error) returns, so no exception ever escapes to the caller. -/
theorem c5_no_error_propagation (s : SlotBoardState) :
    rotateBoardNoCatch s = Except.ok (rotateBoard s) := by
  rcases hbc : s.boardContainer with _ | c
  · simp [rotateBoard, rotateBoardNoCatch, hbc]
  · cases ha : s.activated
    · simp [rotateBoard, rotateBoardNoCatch, hbc, ha]
    · by_cases hz : c.scaleX = 0 ∨ c.scaleY = 0 <;>
        simp [rotateBoard, rotateBoardNoCatch, createRotationAnimation, hbc, ha, hz]

/-- C6 (confirmed): when the board container exists, the `$effect` syncing
the externally driven `rotation` prop writes the displayed rotation
`r * π/180` radians (here in units of π: `radOfDeg r`) and the tracked
rotation `r` degrees. -/
theorem c6_rotation_prop_sync (r : ℚ) (s : SlotBoardState) (c : BoardContainer)
    (h : s.boardContainer = some c) :
    (rotationEffect r s).boardContainer = some { c with rotation := radOfDeg r } ∧
    (rotationEffect r s).currentRotation = r := by
  simp [rotationEffect, h]

/-- C6 witness: the prop sync evaluated at `r = 45` on a mounted board. -/
theorem c6_witness :
    demoState.boardContainer = some demoContainer ∧
    (rotationEffect 45 demoState).boardContainer =
      some { demoContainer with rotation := radOfDeg 45 } ∧
    (rotationEffect 45 demoState).currentRotation = 45 :=
  ⟨rfl, (c6_rotation_prop_sync 45 demoState demoContainer rfl).1,
    (c6_rotation_prop_sync 45 demoState demoContainer rfl).2⟩

/-- C7 (confirmed): from any starting rotation, `resetRotation` with the
container present starts a tween, and running it to completion leaves the
displayed rotation at 0 radians and the tracked rotation at 0 degrees. -/
theorem c7_reset_to_neutral (s : SlotBoardState) (c : BoardContainer)
    (h : s.boardContainer = some c) :
    ((resetRotation s).2).isSome = true ∧
    (runResetToCompletion (resetRotation s).1).boardContainer =
      some { c with rotation := 0 } ∧
    (runResetToCompletion (resetRotation s).1).currentRotation = 0 := by
  simp [resetRotation, runResetToCompletion, h]

/-- C7 witness: the reset evaluated on a board rotated to 90°. -/
theorem c7_witness :
    demoStateRotated.boardContainer =
      some { demoContainer with rotation := radOfDeg 90 } ∧
    ((resetRotation demoStateRotated).2).isSome = true ∧
    (runResetToCompletion (resetRotation demoStateRotated).1).boardContainer =
      some { { demoContainer with rotation := radOfDeg 90 } with rotation := 0 } ∧
    (runResetToCompletion (resetRotation demoStateRotated).1).currentRotation = 0 :=
  ⟨rfl,
    (c7_reset_to_neutral demoStateRotated { demoContainer with rotation := radOfDeg 90 } rfl).1,
    (c7_reset_to_neutral demoStateRotated { demoContainer with rotation := radOfDeg 90 } rfl).2.1,
    (c7_reset_to_neutral demoStateRotated { demoContainer with rotation := radOfDeg 90 } rfl).2.2⟩

/-- C8 (confirmed): a completed rotation animation leaves the board scale
at 1.0 on both axes, and the `onComplete` handler writes that final scale
directly whatever the tweened values drifted to. -/
theorem c8_final_scale (s : SlotBoardState) (c : BoardContainer)
    (h1 : s.boardContainer = some c) (h2 : s.activated = true) :
    ((runRotateToCompletion s).map fun fin =>
        fin.boardContainer.map fun b => (b.scaleX, b.scaleY)) =
      some (some ((1.0 : ℚ), (1.0 : ℚ))) ∧
    (∀ tl : RotationTimeline, ∀ d : SlotBoardState, ∀ c2 : BoardContainer,
      d.boardContainer = some c2 →
        (timelineOnComplete tl d).boardContainer.map (fun b => (b.scaleX, b.scaleY)) =
          some ((1.0 : ℚ), (1.0 : ℚ))) := by
  constructor
  · rw [rotate_run_final s c h1 h2]
    simp [ZOOM_IN_SCALE]
  · intro tl d c2 hd
    simp [timelineOnComplete, hd, ZOOM_IN_SCALE]

/-- C8 witness: the final scale evaluated on a freshly mounted, activated
board. -/
theorem c8_witness :
    demoState.boardContainer = some demoContainer ∧ demoState.activated = true ∧
    ((runRotateToCompletion demoState).map fun fin =>
        fin.boardContainer.map fun b => (b.scaleX, b.scaleY)) =
      some (some ((1.0 : ℚ), (1.0 : ℚ))) :=
  ⟨rfl, rfl, (c8_final_scale demoState demoContainer rfl rfl).1⟩

/-- C9 (amended): every completed rotation animation restores `y` to its
pre-animation value (the whole final state is given explicitly: `x`, `y`
and the pivot are unchanged, the rotation fields advance by 90° and the
scale is forced to 1.0 on both axes); and — provided the pre-animation
scale was already 1.0 on both axes — the final component state differs
from the pre-animation state only in the rotation fields (displayed and
tracked); without that proviso the scale is a second differing field. -/
theorem c9_y_restored (s : SlotBoardState) (c : BoardContainer)
    (h1 : s.boardContainer = some c) (h2 : s.activated = true) :
    runRotateToCompletion s = some
      { s with
        boardContainer := some
          { c with rotation := radOfDeg (s.currentRotation + 90),
                   scaleX := 1.0, scaleY := 1.0 },
        currentRotation := s.currentRotation + 90 } ∧
    (c.scaleX = 1 → c.scaleY = 1 →
      runRotateToCompletion s = some
        { s with
          boardContainer := some { c with rotation := radOfDeg (s.currentRotation + 90) },
          currentRotation := s.currentRotation + 90 }) := by
  constructor
  · rw [rotate_run_final s c h1 h2]
    simp [ZOOM_IN_SCALE, FINAL_ROTATION]
  · intro hx hy
    rw [rotate_run_final s c h1 h2]
    simp only [SlotBoardState.mk.injEq, BoardContainer.mk.injEq, Option.some.injEq,
      ZOOM_IN_SCALE, FINAL_ROTATION, hx, hy]
    norm_num

/-- C9 witness: the amended claim evaluated on a freshly mounted,
activated board, both the unconditional y-restoring final state and the
only-rotation-differs consequence (its scale-1 provisos hold there). -/
theorem c9_witness :
    demoState.boardContainer = some demoContainer ∧ demoState.activated = true ∧
    runRotateToCompletion demoState = some
      { demoState with
        boardContainer := some
          { demoContainer with rotation := radOfDeg (0 + 90),
                               scaleX := 1.0, scaleY := 1.0 },
        currentRotation := 0 + 90 } ∧
    runRotateToCompletion demoState = some
      { demoState with
        boardContainer := some { demoContainer with rotation := radOfDeg (0 + 90) },
        currentRotation := 0 + 90 } :=
  ⟨rfl, rfl, (c9_y_restored demoState demoContainer rfl rfl).1,
    (c9_y_restored demoState demoContainer rfl rfl).2 rfl rfl⟩

/-- C9 counterexample: triggered with a pre-animation scale of ½, the
completed animation leaves the scale at 1 — a field other than the
rotation differs from the pre-animation state — refuting "only the
rotation field differs". -/
theorem c9_counterexample :
    ((runRotateToCompletion demoStateHalfScale).map fun fin =>
        fin.boardContainer.map BoardContainer.scaleX) = some (some 1) ∧
    demoStateHalfScale.boardContainer.map BoardContainer.scaleX = some (1/2) ∧
    (1 : ℚ) ≠ 1/2 := by
  refine ⟨?_, rfl, by norm_num⟩
  rw [rotate_run_final demoStateHalfScale
    { demoContainer with scaleX := 1/2, scaleY := 1/2 } rfl rfl]
  norm_num [ZOOM_IN_SCALE]

/-- Membership of a defaulted in-bounds read. -/
theorem getD_mem_of_lt (l : List Char) (i : Nat) (d : Char) (h : i < l.length) :
    l.getD i d ∈ l := by
  rw [List.getD_eq_getElem _ _ h]
  exact List.getElem_mem h

/-- C10 (confirmed): for any `Math.random` stream honouring its contract
(every draw in `[0, 1)`), `generateSymbolGrid` returns exactly
25 symbols (5 × 5) and every returned symbol is one of the 26 uppercase
letters A–Z. -/
theorem c10_symbol_grid (randoms : Nat → ℚ)
    (h : ∀ i, 0 ≤ randoms i ∧ randoms i < 1) :
    (generateSymbolGrid randoms).length = 25 ∧
    ∀ ch ∈ generateSymbolGrid randoms, ch ∈ SYMBOLS := by
  constructor
  · simp [generateSymbolGrid, GRID_SIZE]
  · intro ch hch
    simp only [generateSymbolGrid, List.mem_map] at hch
    obtain ⟨i, _, hi⟩ := hch
    have hlen : SYMBOLS.length = 26 := rfl
    have h0 : (0 : ℚ) ≤ randoms i * (SYMBOLS.length : ℚ) :=
      mul_nonneg (h i).1 (by positivity)
    have h1 : randoms i * (SYMBOLS.length : ℚ) < 26 := by
      have hlt := mul_lt_mul_of_pos_right (h i).2 (show (0 : ℚ) < (SYMBOLS.length : ℚ) by
        rw [hlen]; norm_num)
      rw [one_mul, hlen] at hlt
      exact_mod_cast hlt
    have hf0 : 0 ≤ Int.floor (randoms i * (SYMBOLS.length : ℚ)) := Int.floor_nonneg.mpr h0
    have hf : Int.floor (randoms i * (SYMBOLS.length : ℚ)) < 26 := by
      apply Int.floor_lt.mpr
      exact_mod_cast h1
    have hidx : (Int.floor (randoms i * (SYMBOLS.length : ℚ))).toNat < SYMBOLS.length := by
      rw [hlen] at hf hf0 ⊢
      omega
    rw [← hi]
    exact getD_mem_of_lt _ _ _ hidx

/-- C10 witness: the grid evaluated on the constant-zero random stream. -/
theorem c10_witness :
    (∀ i : Nat, 0 ≤ (fun _ : Nat => (0 : ℚ)) i ∧ (fun _ : Nat => (0 : ℚ)) i < 1) ∧
    (generateSymbolGrid fun _ => 0).length = 25 ∧
    ∀ ch ∈ generateSymbolGrid fun _ => 0, ch ∈ SYMBOLS := by
  have h : ∀ i : Nat, 0 ≤ (fun _ : Nat => (0 : ℚ)) i ∧ (fun _ : Nat => (0 : ℚ)) i < 1 :=
    fun i => ⟨le_refl 0, by norm_num⟩
  exact ⟨h, (c10_symbol_grid (fun _ => 0) h).1, (c10_symbol_grid (fun _ => 0) h).2⟩
